import Mathlib

/-!
A shallow embedding of the Infineon TPM firmware updater (TPMFactoryUpd).

The source modules embedded here are:
  * `TPMFactoryUpd/CommandFlow_TpmUpdate.c` (update driver flow),
  * `CommandFlow_Tpm12ClearOwnership.c` (clear-ownership flow),
  * `Linux/TpmIO.c` (device channel connection discipline),
  * `Common/MicroTss/Tpm_2_0/TPM2_StartAuthSession.c` and
    `TPM2_GetCapability.c` (command-layer response handling).

Host collaborators that are not part of the sources (PropertyStorage, the
file system, the chip itself, `Platform_*` helpers) are modelled as explicit
environment records: each call a source function makes to such a collaborator
reads one environment field holding that call's outcome.  Return codes are
32-bit values modelled as `Nat`; success is zero.
-/

/-! ## Return codes

The numeric error codes come from a header that is not among the sources.
Values here are chosen distinct; `RC_SUCCESS` is zero and `RC_TPM_MASK` is
the reserved high bit of a 32-bit code, which the spec says is OR-ed onto
every chip-returned code ("*Chip-returned*: any value carried from the chip,
OR'd with the reserved high bit so the classifier can recover the raw
value").  No theorem below depends on the particular values, only on their
distinctness and on the mask being disjoint from the small chip codes. -/

/-- Success return code: zero, as the spec fixes ("success is zero"). -/
def RC_SUCCESS : Nat := 0

/-- Modelled from the spec: generic failure code from the missing error-code header. -/
def RC_E_FAIL : Nat := 0xE0295001

/-- Modelled from the spec: bad-parameter envelope code. -/
def RC_E_BAD_PARAMETER : Nat := 0xE0295002

/-- Modelled from the spec: internal-error envelope code. -/
def RC_E_INTERNAL : Nat := 0xE0295003

/-- Modelled from the spec: not-connected envelope code. -/
def RC_E_NOT_CONNECTED : Nat := 0xE0295004

/-- Modelled from the spec: already-connected envelope code. -/
def RC_E_ALREADY_CONNECTED : Nat := 0xE0295005

/-- Modelled from the spec: invalid-setting code for the config file. -/
def RC_E_INVALID_SETTING : Nat := 0xE0295006

/-- Modelled from the spec: TIS-not-ready code of the memory-mapped backend. -/
def RC_E_NOT_READY : Nat := 0xE0295007

/-- Modelled from the spec: register access unsupported on the driver backend. -/
def RC_E_NOT_SUPPORTED_FEATURE : Nat := 0xE0295008

/-- Modelled from the spec: the TPM does not support the feature (TPM2.0 on clear-ownership). -/
def RC_E_TPM_NOT_SUPPORTED_FEATURE : Nat := 0xE0295009

/-- Modelled from the spec: the TPM1.2 has no owner. -/
def RC_E_TPM12_NO_OWNER : Nat := 0xE029500A

/-- Modelled from the spec: the TPM is not an Infineon TPM. -/
def RC_E_NO_IFX_TPM : Nat := 0xE029500B

/-- Modelled from the spec: the chip is unsupported. -/
def RC_E_UNSUPPORTED_CHIP : Nat := 0xE029500C

/-- Modelled from the spec: the expected TPM1.2 owner authorization is wrong. -/
def RC_E_TPM12_INVALID_OWNERAUTH : Nat := 0xE029500D

/-- Modelled from the spec: Physical Presence locked and Deferred PP unset. -/
def RC_E_TPM12_DEFERREDPP_REQUIRED : Nat := 0xE029500E

/-- Modelled from the spec: the TPM1.2 is disabled or deactivated. -/
def RC_E_TPM12_DISABLED_DEACTIVATED : Nat := 0xE029500F

/-- Modelled from the spec: the TPM1.2 already has an owner. -/
def RC_E_TPM12_OWNED : Nat := 0xE0295010

/-- Modelled from the spec: a system restart is required. -/
def RC_E_RESTART_REQUIRED : Nat := 0xE0295011

/-- Modelled from the spec: the TPM2.0 is in failure mode. -/
def RC_E_TPM20_FAILURE_MODE : Nat := 0xE0295012

/-- Modelled from the spec: the update counter is exhausted. -/
def RC_E_FW_UPDATE_BLOCKED : Nat := 0xE0295013

/-- Modelled from the spec: the chosen update type does not fit the chip. -/
def RC_E_INVALID_UPDATE_OPTION : Nat := 0xE0295014

/-- Modelled from the spec: the firmware image file could not be loaded. -/
def RC_E_INVALID_FW_OPTION : Nat := 0xE0295015

/-- Modelled from the spec: the config file could not be opened. -/
def RC_E_INVALID_CONFIG_OPTION : Nat := 0xE0295016

/-- Modelled from the spec: no firmware image found for the current version. -/
def RC_E_FIRMWARE_UPDATE_NOT_FOUND : Nat := 0xE0295017

/-- Modelled from the spec: the firmware is already up to date. -/
def RC_E_ALREADY_UP_TO_DATE : Nat := 0xE0295018

/-- Modelled from the spec: run-data file missing in boot-loader mode. -/
def RC_E_RESUME_RUNDATA_NOT_FOUND : Nat := 0xE0295019

/-- Modelled from the spec: end-of-string result of `Utility_StringGetLine`. -/
def RC_E_END_OF_STRING : Nat := 0xE029501A

/-- Modelled from the spec: corrupt firmware image. -/
def RC_E_CORRUPT_FW_IMAGE : Nat := 0xE029501B

/-- Modelled from the spec: firmware image does not fit the chip. -/
def RC_E_WRONG_FW_IMAGE : Nat := 0xE029501C

/-- Modelled from the spec: image container version needs a newer tool. -/
def RC_E_NEWER_TOOL_REQUIRED : Nat := 0xE029501D

/-- Modelled from the spec: the TPM2.0 lacks decrypt keys for the image. -/
def RC_E_WRONG_DECRYPT_KEYS : Nat := 0xE029501E

/-- Modelled from the spec: unexpected value from the firmware image check. -/
def RC_E_TPM_FIRMWARE_UPDATE : Nat := 0xE029501F

/-- Modelled from the spec: unmarshal ran past the transport-reported length. -/
def RC_E_BUFFER_TOO_SMALL : Nat := 0xE0295020

/-- Modelled from the spec: the reserved high bit OR-ed onto chip-returned codes. -/
def RC_TPM_MASK : Nat := 0x80000000

/-- TPM1.2 chip code `TPM_AUTHFAIL` (value from the TPM 1.2 specification). -/
def TPM_AUTHFAIL : Nat := 1

/-- TPM1.2 chip code `TPM_BAD_PARAMETER` (value from the TPM 1.2 specification). -/
def TPM_BAD_PARAMETER : Nat := 3

/-- TPM1.2 chip code `TPM_DEACTIVATED` (value from the TPM 1.2 specification). -/
def TPM_DEACTIVATED : Nat := 6

/-- TPM1.2 chip code `TPM_DISABLED` (value from the TPM 1.2 specification). -/
def TPM_DISABLED : Nat := 7

/-! ## TPM state summary

`TPM_STATE.attribs` bit-field of `FirmwareUpdate_CalculateState`, as read by
the command flows. -/

/-- The `attribs` bit-field of the probed TPM state (`TPM_STATE`). -/
structure TpmStateAttribs where
  tpm12 : Bool
  tpm12owner : Bool
  tpm12DeferredPhysicalPresence : Bool
  tpm20 : Bool
  tpm20InFailureMode : Bool
  tpm20restartRequired : Bool
  bootLoader : Bool
  infineon : Bool
  unsupportedChip : Bool
  deriving Repr, DecidableEq

/-! ## Structure-type tags and enums of `TPMFactoryUpdStruct.h`

The header itself is not among the sources; only distinctness of the values
matters to the flows. -/

/-- Modelled from the spec: the `STRUCT_TYPE_TpmUpdate` tag of `IfxUpdate`. -/
def STRUCT_TYPE_TpmUpdate : Nat := 4

/-- Modelled from the spec: the `IsUpdatable` result subtype. -/
def STRUCT_SUBTYPE_IS_UPDATABLE : Nat := 1

/-- Modelled from the spec: the `Prepare` result subtype. -/
def STRUCT_SUBTYPE_PREPARE : Nat := 2

/-- Modelled from the spec: the `Update` result subtype. -/
def STRUCT_SUBTYPE_UPDATE : Nat := 3

/-- Modelled from the spec: `GENERIC_TRISTATE_STATE_NA` of `new_firmware_valid`. -/
def GENERIC_TRISTATE_STATE_NA : Nat := 0

/-- Modelled from the spec: `GENERIC_TRISTATE_STATE_YES` of `new_firmware_valid`. -/
def GENERIC_TRISTATE_STATE_YES : Nat := 1

/-- Modelled from the spec: `GENERIC_TRISTATE_STATE_NO` of `new_firmware_valid`. -/
def GENERIC_TRISTATE_STATE_NO : Nat := 2

/-- Modelled from the spec: `UPDATE_TYPE_NONE` of `ENUM_UPDATE_TYPES`. -/
def UPDATE_TYPE_NONE : Nat := 0

/-- Modelled from the spec: `UPDATE_TYPE_TPM12_DEFERREDPP` (`tpm12-PP`). -/
def UPDATE_TYPE_TPM12_DEFERREDPP : Nat := 1

/-- Modelled from the spec: `UPDATE_TYPE_TPM12_TAKEOWNERSHIP`. -/
def UPDATE_TYPE_TPM12_TAKEOWNERSHIP : Nat := 2

/-- Modelled from the spec: `UPDATE_TYPE_TPM20_EMPTYPLATFORMAUTH`. -/
def UPDATE_TYPE_TPM20_EMPTYPLATFORMAUTH : Nat := 3

/-- Modelled from the spec: `UPDATE_TYPE_CONFIG_FILE` (`config-file`). -/
def UPDATE_TYPE_CONFIG_FILE : Nat := 4

/-! ## C6 `Tpm12Pp`: `CommandFlow_TpmUpdate_PrepareTPM12PhysicalPresence`

The routine issues three chip commands in sequence; each outcome is one
environment value:
  * `rEnable`  — `TSS_TSC_PhysicalPresence(TPM_PHYSICAL_PRESENCE_CMD_ENABLE)`,
  * `rPresent` — `TSS_TSC_PhysicalPresence(TPM_PHYSICAL_PRESENCE_PRESENT)`,
  * `rSetCap`  — `TSS_TPM_SetCapability(TPM_SET_STCLEAR_DATA, DEFERRED_PP, TRUE)`.
A chip error arrives as `RC_TPM_MASK ||| code` per the command layer. -/

/-- Embedding of `CommandFlow_TpmUpdate_PrepareTPM12PhysicalPresence` from
`CommandFlow_TpmUpdate.c`: returns the routine's return code given the
outcomes of the three chip commands it issues (a later command's outcome is
unused when an earlier one already made the routine break). -/
def CommandFlow_TpmUpdate_PrepareTPM12PhysicalPresence
    (rEnable rPresent rSetCap : Nat) : Nat :=
  if rEnable ≠ RC_SUCCESS ∧ rEnable ^^^ RC_TPM_MASK ≠ TPM_BAD_PARAMETER then
    rEnable
  else if rPresent ≠ RC_SUCCESS then
    if rPresent ^^^ RC_TPM_MASK = TPM_BAD_PARAMETER then
      RC_E_TPM12_DEFERREDPP_REQUIRED
    else
      rPresent
  else if rSetCap ≠ RC_SUCCESS then
    rSetCap
  else
    RC_SUCCESS

/-- The outcomes of `TSS_TSC_PhysicalPresence(CMD_ENABLE)` after which the
routine continues: chip success, or the tolerated chip error
`TPM_BAD_PARAMETER`. -/
def toleratedEnableOutcome (r : Nat) : Prop :=
  r = RC_SUCCESS ∨ r = RC_TPM_MASK ||| TPM_BAD_PARAMETER

instance (r : Nat) : Decidable (toleratedEnableOutcome r) := by
  unfold toleratedEnableOutcome; infer_instance

/-- C4: in the TPM 1.2 Physical Presence preparation routine, a chip error of
`TPM_BAD_PARAMETER` from `TSC_PhysicalPresence(CmdEnable)` is tolerated and
the flow continues exactly as on success; a chip error of `TPM_BAD_PARAMETER`
from `TSC_PhysicalPresence(Present)` is mapped to
`RC_E_TPM12_DEFERREDPP_REQUIRED`; any error of the subsequent
`SetCapability(ST_CLEAR_DATA, DEFERRED_PP, TRUE)` is returned as fatal;
otherwise the routine returns success. -/
theorem prepareTPM12PhysicalPresence_error_mapping :
    (∀ rPresent rSetCap : Nat,
      CommandFlow_TpmUpdate_PrepareTPM12PhysicalPresence
          (RC_TPM_MASK ||| TPM_BAD_PARAMETER) rPresent rSetCap =
        CommandFlow_TpmUpdate_PrepareTPM12PhysicalPresence
          RC_SUCCESS rPresent rSetCap) ∧
    (∀ rEnable rSetCap : Nat, toleratedEnableOutcome rEnable →
      CommandFlow_TpmUpdate_PrepareTPM12PhysicalPresence
          rEnable (RC_TPM_MASK ||| TPM_BAD_PARAMETER) rSetCap =
        RC_E_TPM12_DEFERREDPP_REQUIRED) ∧
    (∀ rEnable rSetCap : Nat, toleratedEnableOutcome rEnable →
      rSetCap ≠ RC_SUCCESS →
      CommandFlow_TpmUpdate_PrepareTPM12PhysicalPresence
          rEnable RC_SUCCESS rSetCap = rSetCap) ∧
    (∀ rEnable : Nat, toleratedEnableOutcome rEnable →
      CommandFlow_TpmUpdate_PrepareTPM12PhysicalPresence
          rEnable RC_SUCCESS RC_SUCCESS = RC_SUCCESS) := by
  have hmask : (RC_TPM_MASK ||| TPM_BAD_PARAMETER) ^^^ RC_TPM_MASK =
      TPM_BAD_PARAMETER := by decide
  have hne : RC_TPM_MASK ||| TPM_BAD_PARAMETER ≠ RC_SUCCESS := by decide
  refine ⟨?_, ?_, ?_, ?_⟩
  · intro rPresent rSetCap
    simp [CommandFlow_TpmUpdate_PrepareTPM12PhysicalPresence, hmask, hne]
  · rintro rEnable rSetCap (rfl | rfl) <;>
      simp [CommandFlow_TpmUpdate_PrepareTPM12PhysicalPresence, hmask, hne]
  · rintro rEnable rSetCap (rfl | rfl) hset <;>
      simp [CommandFlow_TpmUpdate_PrepareTPM12PhysicalPresence, hmask, hne, hset]
  · rintro rEnable (rfl | rfl) <;>
      simp [CommandFlow_TpmUpdate_PrepareTPM12PhysicalPresence, hmask, hne]

/-- Witness for C4 at concrete inputs: the `Present` command failing with the
chip code `TPM_BAD_PARAMETER` (after a tolerated `CmdEnable` error) yields
`RC_E_TPM12_DEFERREDPP_REQUIRED`. -/
theorem prepareTPM12PhysicalPresence_error_mapping_witness :
    CommandFlow_TpmUpdate_PrepareTPM12PhysicalPresence
        (RC_TPM_MASK ||| TPM_BAD_PARAMETER) (RC_TPM_MASK ||| TPM_BAD_PARAMETER)
        RC_SUCCESS =
      RC_E_TPM12_DEFERREDPP_REQUIRED :=
  prepareTPM12PhysicalPresence_error_mapping.2.1
    (RC_TPM_MASK ||| TPM_BAD_PARAMETER) RC_SUCCESS (Or.inr rfl)

/-! ## C7 update step: `CommandFlow_TpmUpdate_UpdateFirmware`

The run-data file `TPMFactoryUpd_RunData.txt` is modelled as
`Option String`: `none` when absent, `some line` when present with that
single line as its content.  `FileIO_Open(..., FILE_WRITE)` creates the file,
so a successful open followed by a failed property lookup leaves an empty
file behind (`some ""`). -/

/-- The `IfxUpdate` structure as the update flow reads it.  `sizeOk` stands
for `unSize == sizeof(IfxUpdate)`; `unReturnCode` and `unNewFirmwareValid`
hold the values stored by the previous flow step (they stay untouched when a
parameter check fails before the function overwrites them). -/
structure IfxUpdateIn where
  unType : Nat
  sizeOk : Bool
  unSubType : Nat
  unReturnCode : Nat
  unNewFirmwareValid : Nat
  sTpmState : TpmStateAttribs
  hPolicySession : Nat
  unRemainingUpdates : Nat
  wszVersionName : String
  deriving Repr, DecidableEq

/-- Collaborator outcomes consumed by `CommandFlow_TpmUpdate_UpdateFirmware`:
one field per call the function (or the started callback it registers) makes
to the property storage, the chip, or the file system. -/
structure UpdateFirmwareEnv where
  /-- Outcome of `PropertyStorage_GetUIntegerValueByKey(PROPERTY_UPDATE_TYPE, ...)`;
  `none` when the lookup returns `FALSE`. -/
  updateTypeProp : Option Nat
  /-- Outcome of `PropertyStorage_GetBooleanValueByKey(PROPERTY_DRY_RUN, ...)`; `none`
  when the lookup returns `FALSE`. -/
  dryRunProp : Option Bool
  /-- The module flag `s_fUpdateThroughConfigFile`. -/
  updateThroughConfigFile : Bool
  /-- Return code of `FirmwareUpdate_UpdateImage(&sFirmwareUpdateData)`. -/
  updateImageResult : Nat
  /-- Progress percentages `FirmwareUpdate_UpdateImage` reports through
  `Response_ProgressCallback`. -/
  updateImageProgress : List Nat
  /-- Whether `FirmwareUpdate_UpdateImage` got its first data block
  acknowledged and hence invoked `fnUpdateStartedCallback`. -/
  updateImageStartedCallbackRan : Bool
  /-- Outcome of `FileIO_Open(TPM_FACTORY_UPD_RUNDATA_FILE, FILE_WRITE)` success inside
  the started callback. -/
  callbackOpenOk : Bool
  /-- Outcome of `PropertyStorage_GetValueByKey(PROPERTY_FIRMWARE_PATH, ...)` inside the
  started callback; `none` when the lookup returns `FALSE`. -/
  callbackFirmwarePathProp : Option String
  /-- Outcome of `FileIO_Remove(TPM_FACTORY_UPD_RUNDATA_FILE)` success. -/
  removeOk : Bool
  deriving Repr, DecidableEq

/-- Embedding of `CommandFlow_TpmUpdate_UpdateStartedCallback` from
`CommandFlow_TpmUpdate.c`: called by `FirmwareUpdate_UpdateImage` once the
chip acknowledged the first data block.  Writes the firmware image path into
`TPMFactoryUpd_RunData.txt` only when the update runs through the
`-update config-file` option; all errors are swallowed.  A successful open
with a failed property lookup still leaves the (empty) file created by
`FileIO_Open(..., FILE_WRITE)`. -/
def CommandFlow_TpmUpdate_UpdateStartedCallback
    (updateThroughConfigFile openOk : Bool) (firmwarePathProp : Option String)
    (runData : Option String) : Option String :=
  if updateThroughConfigFile then
    if openOk then
      match firmwarePathProp with
      | none => some ""
      | some p => some p
    else runData
  else runData

/-- Result of `CommandFlow_TpmUpdate_UpdateFirmware`: the envelope return
value, the fields of the `IfxUpdate` structure it writes, the observable
chip/file effects (progress events, whether `FirmwareUpdate_UpdateImage` ran,
whether `TSS_TPM2_FlushContext` was issued), and the run-data file state on
exit. -/
structure UpdateFirmwareRes where
  unReturnValue : Nat
  unReturnCode : Nat
  unSubType : Nat
  hPolicySession : Nat
  progress : List Nat
  updateImageCalled : Bool
  flushCalled : Bool
  runData : Option String
  deriving Repr, DecidableEq

/-- The flush-on-error epilogue of `CommandFlow_TpmUpdate_UpdateFirmware`:
"Try to close policy session in case of errors (only if session has already
been started)". -/
def updateFirmware_flushEpilogue (p : IfxUpdateIn)
    (base : UpdateFirmwareRes) : UpdateFirmwareRes :=
  if (base.unReturnValue ≠ RC_SUCCESS ∨ base.unReturnCode ≠ RC_SUCCESS) ∧
      p.hPolicySession ≠ 0 then
    { base with flushCalled := true, hPolicySession := 0 }
  else
    base

/-- The run-data file state after `FirmwareUpdate_UpdateImage` ran: when the
chip acknowledged the first data block, `FirmwareUpdate_UpdateImage` invoked
the registered `CommandFlow_TpmUpdate_UpdateStartedCallback`. -/
def updateFirmware_runDataAfterImage (env : UpdateFirmwareEnv)
    (runData : Option String) : Option String :=
  if env.updateImageStartedCallbackRan then
    CommandFlow_TpmUpdate_UpdateStartedCallback env.updateThroughConfigFile
      env.callbackOpenOk env.callbackFirmwarePathProp runData
  else runData

/-- The `do ... while(false)` body of `CommandFlow_TpmUpdate_UpdateFirmware`
(everything before the final flush-on-error block). -/
def CommandFlow_TpmUpdate_UpdateFirmware_body (p : IfxUpdateIn)
    (env : UpdateFirmwareEnv) (runData : Option String) : UpdateFirmwareRes :=
  if p.unType ≠ STRUCT_TYPE_TpmUpdate ∨ p.sizeOk = false ∨
      p.unSubType ≠ STRUCT_SUBTYPE_PREPARE then
    { unReturnValue := RC_E_BAD_PARAMETER, unReturnCode := p.unReturnCode,
      unSubType := p.unSubType, hPolicySession := p.hPolicySession,
      progress := [], updateImageCalled := false, flushCalled := false,
      runData := runData }
  else if p.sTpmState.tpm12 = true ∧ env.updateTypeProp = none then
    { unReturnValue := RC_E_FAIL, unReturnCode := RC_E_FAIL,
      unSubType := STRUCT_SUBTYPE_UPDATE, hPolicySession := p.hPolicySession,
      progress := [], updateImageCalled := false, flushCalled := false,
      runData := runData }
  else if env.dryRunProp = some true then
    { unReturnValue := RC_SUCCESS, unReturnCode := RC_SUCCESS,
      unSubType := STRUCT_SUBTYPE_UPDATE, hPolicySession := p.hPolicySession,
      progress := [25, 50, 75, 100], updateImageCalled := false,
      flushCalled := false,
      runData := if runData ≠ none ∧ env.removeOk = true then none
        else runData }
  else
    { unReturnValue := RC_SUCCESS, unReturnCode := env.updateImageResult,
      unSubType := STRUCT_SUBTYPE_UPDATE, hPolicySession := p.hPolicySession,
      progress := env.updateImageProgress, updateImageCalled := true,
      flushCalled := false,
      runData := if env.updateImageResult = RC_SUCCESS then
          (if updateFirmware_runDataAfterImage env runData ≠ none ∧
              env.removeOk = true then none
            else updateFirmware_runDataAfterImage env runData)
        else updateFirmware_runDataAfterImage env runData }

/-- Embedding of `CommandFlow_TpmUpdate_UpdateFirmware` from `CommandFlow_TpmUpdate.c`:
the body above followed by the unconditional epilogue that flushes the TPM2.0
policy session through `TSS_TPM2_FlushContext` and zeroes the stored handle
whenever either return code signals an error while the handle is non-zero. -/
def CommandFlow_TpmUpdate_UpdateFirmware (p : IfxUpdateIn)
    (env : UpdateFirmwareEnv) (runData : Option String) : UpdateFirmwareRes :=
  updateFirmware_flushEpilogue p
    (CommandFlow_TpmUpdate_UpdateFirmware_body p env runData)

/-- The flush epilogue only touches `flushCalled` and the session handle. -/
theorem updateFirmware_flushEpilogue_fields (p : IfxUpdateIn)
    (base : UpdateFirmwareRes) :
    (updateFirmware_flushEpilogue p base).unReturnValue = base.unReturnValue ∧
    (updateFirmware_flushEpilogue p base).unReturnCode = base.unReturnCode ∧
    (updateFirmware_flushEpilogue p base).progress = base.progress ∧
    (updateFirmware_flushEpilogue p base).updateImageCalled =
      base.updateImageCalled ∧
    (updateFirmware_flushEpilogue p base).runData = base.runData := by
  unfold updateFirmware_flushEpilogue
  split <;> exact ⟨rfl, rfl, rfl, rfl, rfl⟩


/-- The body never touches the stored policy-session handle; only the
epilogue does. -/
theorem updateFirmware_body_session (p : IfxUpdateIn) (env : UpdateFirmwareEnv)
    (runData : Option String) :
    (CommandFlow_TpmUpdate_UpdateFirmware_body p env runData).hPolicySession =
      p.hPolicySession := by
  unfold CommandFlow_TpmUpdate_UpdateFirmware_body
  split
  · rfl
  · split
    · rfl
    · split <;> rfl

/-- A clean operational TPM2.0 probed state, used by concrete witnesses. -/
def tpm20State : TpmStateAttribs :=
  ⟨false, false, false, true, false, false, false, true, false⟩

/-- A valid prepared `IfxUpdate` structure on a TPM2.0 with a live policy
session, used by concrete witnesses. -/
def preparedTpm20Update : IfxUpdateIn :=
  ⟨STRUCT_TYPE_TpmUpdate, true, STRUCT_SUBTYPE_PREPARE, RC_SUCCESS,
    GENERIC_TRISTATE_STATE_YES, tpm20State, 0x03000000, 64, "5.63.3353.0"⟩

/-- An `IfxUpdate` structure whose subtype check fails (it is still in the
`IsUpdatable` subtype) while a policy session handle is live, used by
concrete witnesses. -/
def staleSubtypeUpdate : IfxUpdateIn :=
  ⟨STRUCT_TYPE_TpmUpdate, true, STRUCT_SUBTYPE_IS_UPDATABLE, RC_SUCCESS,
    GENERIC_TRISTATE_STATE_NA, tpm20State, 5, 64, "5.63.3353.0"⟩

/-- A dry-run environment for the update step, used by concrete witnesses. -/
def dryRunEnv : UpdateFirmwareEnv :=
  ⟨some UPDATE_TYPE_TPM20_EMPTYPLATFORMAUTH, some true, false, RC_SUCCESS, [],
    false, true, none, true⟩

/-- C2: in dry-run mode (the `PROPERTY_DRY_RUN` lookup succeeds with value
`TRUE`), the update step of `CommandFlow_TpmUpdate_UpdateFirmware` does not
invoke `FirmwareUpdate_UpdateImage` (so no TPM command is sent), emits
exactly the progress sequence `[25, 50, 75, 100]`, and sets the inner return
code to `RC_SUCCESS`. -/
theorem updateFirmware_dry_run (p : IfxUpdateIn) (env : UpdateFirmwareEnv)
    (runData : Option String)
    (htype : p.unType = STRUCT_TYPE_TpmUpdate) (hsize : p.sizeOk = true)
    (hsub : p.unSubType = STRUCT_SUBTYPE_PREPARE)
    (hupd : p.sTpmState.tpm12 = true → env.updateTypeProp ≠ none)
    (hdry : env.dryRunProp = some true) :
    (CommandFlow_TpmUpdate_UpdateFirmware p env runData).updateImageCalled =
        false ∧
    (CommandFlow_TpmUpdate_UpdateFirmware p env runData).progress =
        [25, 50, 75, 100] ∧
    (CommandFlow_TpmUpdate_UpdateFirmware p env runData).unReturnCode =
        RC_SUCCESS := by
  have h1 : ¬(p.unType ≠ STRUCT_TYPE_TpmUpdate ∨ p.sizeOk = false ∨
      p.unSubType ≠ STRUCT_SUBTYPE_PREPARE) := by
    rintro (h | h | h)
    · exact h htype
    · rw [hsize] at h; cases h
    · exact h hsub
  have h2 : ¬(p.sTpmState.tpm12 = true ∧ env.updateTypeProp = none) := by
    rintro ⟨h12, hnone⟩
    exact hupd h12 hnone
  unfold CommandFlow_TpmUpdate_UpdateFirmware
    CommandFlow_TpmUpdate_UpdateFirmware_body updateFirmware_flushEpilogue
  rw [if_neg h1, if_neg h2, if_pos hdry]
  split <;> exact ⟨rfl, rfl, rfl⟩

/-- Witness for C2 at a concrete input: a valid prepared structure on a
TPM2.0 in dry-run mode emits exactly `[25, 50, 75, 100]`. -/
theorem updateFirmware_dry_run_witness :
    (CommandFlow_TpmUpdate_UpdateFirmware preparedTpm20Update dryRunEnv
        none).progress = [25, 50, 75, 100] :=
  (updateFirmware_dry_run preparedTpm20Update dryRunEnv none rfl rfl rfl
    (fun _ => by simp [dryRunEnv]) rfl).2.1

/-- C3: whenever `CommandFlow_TpmUpdate_UpdateFirmware` exits with an error
(its envelope return value or the inner return code is non-success) while
the stored TPM2.0 policy-session handle is non-zero, it issues
`TSS_TPM2_FlushContext` on that session and resets the stored handle to
zero; in particular the stored handle is zero on every error exit. -/
theorem updateFirmware_flushes_session_on_error (p : IfxUpdateIn)
    (env : UpdateFirmwareEnv) (runData : Option String)
    (herr : (CommandFlow_TpmUpdate_UpdateFirmware p env runData).unReturnValue ≠
        RC_SUCCESS ∨
      (CommandFlow_TpmUpdate_UpdateFirmware p env runData).unReturnCode ≠
        RC_SUCCESS) :
    (CommandFlow_TpmUpdate_UpdateFirmware p env runData).hPolicySession = 0 ∧
    (p.hPolicySession ≠ 0 →
      (CommandFlow_TpmUpdate_UpdateFirmware p env runData).flushCalled =
        true) := by
  unfold CommandFlow_TpmUpdate_UpdateFirmware updateFirmware_flushEpilogue
    at herr ⊢
  by_cases hc :
      ((CommandFlow_TpmUpdate_UpdateFirmware_body p env
          runData).unReturnValue ≠ RC_SUCCESS ∨
        (CommandFlow_TpmUpdate_UpdateFirmware_body p env
          runData).unReturnCode ≠ RC_SUCCESS) ∧
      p.hPolicySession ≠ 0
  · rw [if_pos hc] at herr ⊢
    exact ⟨rfl, fun _ => rfl⟩
  · rw [if_neg hc] at herr ⊢
    have hs : p.hPolicySession = 0 := by
      by_contra hs
      exact hc ⟨herr, hs⟩
    exact ⟨(updateFirmware_body_session p env runData).trans hs,
      fun h => absurd hs h⟩

/-- Witness for C3 at a concrete input: a structure failing the subtype
check with a live session handle `5` ends with the stored handle zeroed. -/
theorem updateFirmware_flushes_session_on_error_witness :
    (CommandFlow_TpmUpdate_UpdateFirmware staleSubtypeUpdate dryRunEnv
        none).hPolicySession = 0 :=
  (updateFirmware_flushes_session_on_error staleSubtypeUpdate dryRunEnv none
    (Or.inl (by decide))).1

/-- C1 counterexample: the claim says the run-data file is created on the
first acknowledged data block "for every update flavor"; but for an update
that was not initiated through the `-update config-file` option
(`s_fUpdateThroughConfigFile == FALSE`, as with `-update
tpm20-emptyplatformauth -firmware ...`), the started callback leaves the
file absent even though the file could be opened and the firmware path
property is available. -/
theorem runData_created_for_every_flavor_counterexample :
    CommandFlow_TpmUpdate_UpdateStartedCallback false true
        (some "/tmp/img.bin") none = none := rfl

/-- C1 (amended): starting from an absent run-data file, the started
callback creates the file exactly when the update runs through the
config-file option and the file open succeeds; and on successful completion
of the update step the file is absent, provided the filesystem remove
succeeds. -/
theorem runData_lifecycle :
    (∀ (cf openOk : Bool) (fp : Option String) (rd : Option String),
      rd = none →
      (CommandFlow_TpmUpdate_UpdateStartedCallback cf openOk fp rd ≠ none ↔
        cf = true ∧ openOk = true)) ∧
    (∀ (p : IfxUpdateIn) (env : UpdateFirmwareEnv) (runData : Option String),
      (CommandFlow_TpmUpdate_UpdateFirmware p env runData).unReturnValue =
          RC_SUCCESS →
      (CommandFlow_TpmUpdate_UpdateFirmware p env runData).unReturnCode =
          RC_SUCCESS →
      env.removeOk = true →
      (CommandFlow_TpmUpdate_UpdateFirmware p env runData).runData = none) := by
  constructor
  · rintro cf openOk fp rd rfl
    cases cf <;> cases openOk <;> cases fp <;>
      simp [CommandFlow_TpmUpdate_UpdateStartedCallback]
  · intro p env runData hret hinner hrm
    have hclear : ∀ x : Option String,
        (if x ≠ none ∧ env.removeOk = true then none else x) = none := by
      intro x
      rw [hrm]
      by_cases hx : x = none <;> simp [hx]
    unfold CommandFlow_TpmUpdate_UpdateFirmware at hret hinner ⊢
    rw [(updateFirmware_flushEpilogue_fields _ _).1] at hret
    rw [(updateFirmware_flushEpilogue_fields _ _).2.1] at hinner
    rw [(updateFirmware_flushEpilogue_fields _ _).2.2.2.2]
    unfold CommandFlow_TpmUpdate_UpdateFirmware_body at hret hinner ⊢
    by_cases h1 : p.unType ≠ STRUCT_TYPE_TpmUpdate ∨ p.sizeOk = false ∨
        p.unSubType ≠ STRUCT_SUBTYPE_PREPARE
    · rw [if_pos h1] at hret
      simp [RC_E_BAD_PARAMETER, RC_SUCCESS] at hret
    · rw [if_neg h1] at hret hinner ⊢
      by_cases h2 : p.sTpmState.tpm12 = true ∧ env.updateTypeProp = none
      · rw [if_pos h2] at hret
        simp [RC_E_FAIL, RC_SUCCESS] at hret
      · rw [if_neg h2] at hret hinner ⊢
        by_cases h3 : env.dryRunProp = some true
        · rw [if_pos h3]
          exact hclear runData
        · rw [if_neg h3] at hinner ⊢
          have hres : env.updateImageResult = RC_SUCCESS := hinner
          show (if env.updateImageResult = RC_SUCCESS then
              (if updateFirmware_runDataAfterImage env runData ≠ none ∧
                  env.removeOk = true then none
                else updateFirmware_runDataAfterImage env runData)
            else updateFirmware_runDataAfterImage env runData) = none
          rw [if_pos hres]
          exact hclear _

/-- Witness for C1 (amended) at concrete inputs: with the config-file flag
set and a successful open, the callback does create the file. -/
theorem runData_lifecycle_witness :
    CommandFlow_TpmUpdate_UpdateStartedCallback true true
        (some "/tmp/img.bin") none ≠ none :=
  (runData_lifecycle.1 true true (some "/tmp/img.bin") none rfl).mpr ⟨rfl, rfl⟩

/-! ## C7 precondition step: `CommandFlow_TpmUpdate_IsFirmwareUpdatable`

`FirmwareUpdate_CheckImage` and `FirmwareImage_Unmarshal` live in modules
that are not among the sources; their outcomes are environment values. -/

/-- Modelled from the spec: the outcome of `FirmwareUpdate_CheckImage` — a
return code, the validity verdict, and the error-details code explaining an
invalid image. -/
structure CheckImageRes where
  ret : Nat
  fValid : Bool
  errorDetails : Nat
  deriving Repr, DecidableEq

/-- Modelled from the spec: the fields of `IfxFirmwareImage` that
`CommandFlow_TpmUpdate_IsTpmUpdatableWithFirmware` reads after
`FirmwareImage_Unmarshal` — the target version string and target family. -/
structure FirmwareImageParse where
  wszTargetVersion : String
  bTargetTpmFamily : Nat
  deriving Repr, DecidableEq

/-- Collaborator outcomes consumed by
`CommandFlow_TpmUpdate_IsFirmwareUpdatable`. -/
structure IsFirmwareUpdatableEnv where
  /-- Outcome of `PropertyStorage_GetUIntegerValueByKey(PROPERTY_UPDATE_TYPE, ...)`. -/
  updateTypeProp : Option Nat
  /-- Outcome of `PropertyStorage_GetValueByKey(PROPERTY_FIRMWARE_PATH, ...)`. -/
  firmwarePathProp : Option String
  /-- Outcome of `FileIO_ReadFileToBuffer` success on the firmware image file. -/
  readFileOk : Bool
  /-- Outcome of `FirmwareUpdate_CheckImage`. -/
  checkImage : CheckImageRes
  /-- Outcome of `FirmwareImage_Unmarshal`; `none` means a parse failure. -/
  unmarshalImage : Option FirmwareImageParse
  /-- Return code of a failed `FirmwareImage_Unmarshal`. -/
  unmarshalErrCode : Nat
  deriving Repr, DecidableEq

/-- Result of `CommandFlow_TpmUpdate_IsTpmUpdatableWithFirmware`. -/
structure IsTpmUpdatableRes where
  unReturnValue : Nat
  wszNewFirmwareVersion : String
  bTargetFamily : Nat
  deriving Repr, DecidableEq

/-- Embedding of `CommandFlow_TpmUpdate_IsTpmUpdatableWithFirmware` from
`CommandFlow_TpmUpdate.c`: checks the loaded firmware package through
`FirmwareUpdate_CheckImage`, maps the known error details
(`RC_E_CORRUPT_FW_IMAGE`, `RC_E_WRONG_FW_IMAGE`, `RC_E_NEWER_TOOL_REQUIRED`,
`RC_E_WRONG_DECRYPT_KEYS`) through unchanged and anything else to
`RC_E_TPM_FIRMWARE_UPDATE`, then parses the image for target version and
family. -/
def CommandFlow_TpmUpdate_IsTpmUpdatableWithFirmware (p : IfxUpdateIn)
    (env : IsFirmwareUpdatableEnv) : IsTpmUpdatableRes :=
  if p.unType ≠ STRUCT_TYPE_TpmUpdate ∨ p.sizeOk = false then
    ⟨RC_E_BAD_PARAMETER, "", 0⟩
  else if env.checkImage.ret ≠ RC_SUCCESS then
    ⟨env.checkImage.ret, "", 0⟩
  else if env.checkImage.fValid = false then
    if env.checkImage.errorDetails = RC_E_CORRUPT_FW_IMAGE ∨
        env.checkImage.errorDetails = RC_E_WRONG_FW_IMAGE ∨
        env.checkImage.errorDetails = RC_E_NEWER_TOOL_REQUIRED ∨
        env.checkImage.errorDetails = RC_E_WRONG_DECRYPT_KEYS then
      ⟨env.checkImage.errorDetails, "", 0⟩
    else
      ⟨RC_E_TPM_FIRMWARE_UPDATE, "", 0⟩
  else match env.unmarshalImage with
    | none => ⟨env.unmarshalErrCode, "", 0⟩
    | some img => ⟨RC_SUCCESS, img.wszTargetVersion, img.bTargetTpmFamily⟩

/-- Result of `CommandFlow_TpmUpdate_IsFirmwareUpdatable`: the envelope
return value, the written `IfxUpdate` fields, and whether the firmware image
file was loaded (`FileIO_ReadFileToBuffer`) and checked
(`FirmwareUpdate_CheckImage` through
`CommandFlow_TpmUpdate_IsTpmUpdatableWithFirmware`). -/
structure IsFirmwareUpdatableRes where
  unReturnValue : Nat
  unReturnCode : Nat
  unSubType : Nat
  unNewFirmwareValid : Nat
  fileLoadAttempted : Bool
  checkImageCalled : Bool
  deriving Repr, DecidableEq

/-- Embedding of `CommandFlow_TpmUpdate_IsFirmwareUpdatable` from
`CommandFlow_TpmUpdate.c`: the `IsUpdatable` step — update-type/owner/
restart/failure-mode checks, the update-counter check, then loading and
checking the firmware image. -/
def CommandFlow_TpmUpdate_IsFirmwareUpdatable (p : IfxUpdateIn)
    (env : IsFirmwareUpdatableEnv) : IsFirmwareUpdatableRes :=
  if p.unType ≠ STRUCT_TYPE_TpmUpdate ∨ p.sizeOk = false then
    ⟨RC_E_BAD_PARAMETER, p.unReturnCode, p.unSubType, p.unNewFirmwareValid,
      false, false⟩
  else match env.updateTypeProp with
  | none =>
    ⟨RC_E_FAIL, RC_E_FAIL, STRUCT_SUBTYPE_IS_UPDATABLE,
      GENERIC_TRISTATE_STATE_NA, false, false⟩
  | some ut =>
    if p.sTpmState.tpm12 = true ∧ ut ≠ UPDATE_TYPE_TPM12_DEFERREDPP ∧
        ut ≠ UPDATE_TYPE_TPM12_TAKEOWNERSHIP then
      ⟨RC_SUCCESS, RC_E_INVALID_UPDATE_OPTION, STRUCT_SUBTYPE_IS_UPDATABLE,
        GENERIC_TRISTATE_STATE_NA, false, false⟩
    else if p.sTpmState.tpm12 = true ∧ p.sTpmState.tpm12owner = true then
      ⟨RC_SUCCESS, RC_E_TPM12_OWNED, STRUCT_SUBTYPE_IS_UPDATABLE,
        GENERIC_TRISTATE_STATE_NA, false, false⟩
    else if p.sTpmState.tpm20 = true ∧
        ut ≠ UPDATE_TYPE_TPM20_EMPTYPLATFORMAUTH then
      ⟨RC_SUCCESS, RC_E_INVALID_UPDATE_OPTION, STRUCT_SUBTYPE_IS_UPDATABLE,
        GENERIC_TRISTATE_STATE_NA, false, false⟩
    else if p.sTpmState.tpm20restartRequired = true then
      ⟨RC_SUCCESS, RC_E_RESTART_REQUIRED, STRUCT_SUBTYPE_IS_UPDATABLE,
        GENERIC_TRISTATE_STATE_NA, false, false⟩
    else if p.sTpmState.tpm20InFailureMode = true then
      ⟨RC_SUCCESS, RC_E_TPM20_FAILURE_MODE, STRUCT_SUBTYPE_IS_UPDATABLE,
        GENERIC_TRISTATE_STATE_NA, false, false⟩
    else if p.unRemainingUpdates = 0 then
      ⟨RC_SUCCESS, RC_E_FW_UPDATE_BLOCKED, STRUCT_SUBTYPE_IS_UPDATABLE,
        GENERIC_TRISTATE_STATE_NA, false, false⟩
    else match env.firmwarePathProp with
    | none =>
      ⟨RC_E_FAIL, RC_E_FAIL, STRUCT_SUBTYPE_IS_UPDATABLE,
        GENERIC_TRISTATE_STATE_NA, false, false⟩
    | some _ =>
      if env.readFileOk = false then
        ⟨RC_E_INVALID_FW_OPTION, RC_E_FAIL, STRUCT_SUBTYPE_IS_UPDATABLE,
          GENERIC_TRISTATE_STATE_NA, true, false⟩
      else if (CommandFlow_TpmUpdate_IsTpmUpdatableWithFirmware p
          env).unReturnValue ≠ RC_SUCCESS then
        ⟨RC_SUCCESS,
          (CommandFlow_TpmUpdate_IsTpmUpdatableWithFirmware p
            env).unReturnValue,
          STRUCT_SUBTYPE_IS_UPDATABLE, GENERIC_TRISTATE_STATE_NO, true, true⟩
      else
        ⟨RC_SUCCESS, RC_SUCCESS, STRUCT_SUBTYPE_IS_UPDATABLE,
          GENERIC_TRISTATE_STATE_YES, true, true⟩

/-- A probed state of an owned TPM1.2 whose update counter is exhausted,
used to refute C7 as stated. -/
def ownedTpm12State : TpmStateAttribs :=
  ⟨true, true, false, false, false, false, false, true, false⟩

/-- An `IfxUpdate` structure for an owned TPM1.2 with `unRemainingUpdates`
equal to zero. -/
def ownedTpm12ZeroCountUpdate : IfxUpdateIn :=
  ⟨STRUCT_TYPE_TpmUpdate, true, STRUCT_SUBTYPE_IS_UPDATABLE, RC_SUCCESS,
    GENERIC_TRISTATE_STATE_NA, ownedTpm12State, 0, 0, "4.40.119.0"⟩

/-- A benign environment for the `IsUpdatable` step of a `tpm12-PP` update,
used by C7's counterexample and witness. -/
def isUpdatableDeferredPPEnv : IsFirmwareUpdatableEnv :=
  ⟨some UPDATE_TYPE_TPM12_DEFERREDPP, some "fw.BIN", true,
    ⟨RC_SUCCESS, true, RC_SUCCESS⟩, some ⟨"4.43.257.0", 1⟩, RC_E_FAIL⟩

/-- C7 counterexample: the claim quantifies over *every* probed state with
`remaining_updates = 0`, but the owned-TPM1.2 check precedes the counter
check, so an owned TPM1.2 with an exhausted counter reports
`RC_E_TPM12_OWNED`, not `RC_E_FW_UPDATE_BLOCKED`. -/
theorem remainingUpdatesZero_counterexample :
    ownedTpm12ZeroCountUpdate.unRemainingUpdates = 0 ∧
    (CommandFlow_TpmUpdate_IsFirmwareUpdatable ownedTpm12ZeroCountUpdate
        isUpdatableDeferredPPEnv).unReturnCode = RC_E_TPM12_OWNED ∧
    RC_E_TPM12_OWNED ≠ RC_E_FW_UPDATE_BLOCKED := by
  refine ⟨rfl, ?_, by decide⟩
  rfl

/-- C7 (amended): for every probed state with `remaining_updates = 0` that
passes the checks evaluated earlier (the update type matches the chip
family, the TPM1.2 is not owned, no restart is required, no failure mode),
`CommandFlow_TpmUpdate_IsFirmwareUpdatable` stops before loading or checking
the firmware image and reports `RC_E_FW_UPDATE_BLOCKED` as the inner return
code with the envelope return value `RC_SUCCESS`. -/
theorem remainingUpdatesZero_blocks (p : IfxUpdateIn)
    (env : IsFirmwareUpdatableEnv) (ut : Nat)
    (htype : p.unType = STRUCT_TYPE_TpmUpdate) (hsize : p.sizeOk = true)
    (hut : env.updateTypeProp = some ut)
    (h12 : p.sTpmState.tpm12 = true →
      (ut = UPDATE_TYPE_TPM12_DEFERREDPP ∨
        ut = UPDATE_TYPE_TPM12_TAKEOWNERSHIP) ∧
      p.sTpmState.tpm12owner = false)
    (h20 : p.sTpmState.tpm20 = true → ut = UPDATE_TYPE_TPM20_EMPTYPLATFORMAUTH)
    (hrestart : p.sTpmState.tpm20restartRequired = false)
    (hfailure : p.sTpmState.tpm20InFailureMode = false)
    (hcount : p.unRemainingUpdates = 0) :
    (CommandFlow_TpmUpdate_IsFirmwareUpdatable p env).unReturnValue =
        RC_SUCCESS ∧
    (CommandFlow_TpmUpdate_IsFirmwareUpdatable p env).unReturnCode =
        RC_E_FW_UPDATE_BLOCKED ∧
    (CommandFlow_TpmUpdate_IsFirmwareUpdatable p env).fileLoadAttempted =
        false ∧
    (CommandFlow_TpmUpdate_IsFirmwareUpdatable p env).checkImageCalled =
        false := by
  have h1 : ¬(p.unType ≠ STRUCT_TYPE_TpmUpdate ∨ p.sizeOk = false) := by
    rintro (h | h)
    · exact h htype
    · rw [hsize] at h; cases h
  have h2 : ¬(p.sTpmState.tpm12 = true ∧ ut ≠ UPDATE_TYPE_TPM12_DEFERREDPP ∧
      ut ≠ UPDATE_TYPE_TPM12_TAKEOWNERSHIP) := by
    rintro ⟨ha, hb, hc⟩
    rcases (h12 ha).1 with h | h
    · exact hb h
    · exact hc h
  have h3 : ¬(p.sTpmState.tpm12 = true ∧ p.sTpmState.tpm12owner = true) := by
    rintro ⟨ha, hb⟩
    rw [(h12 ha).2] at hb
    cases hb
  have h4 : ¬(p.sTpmState.tpm20 = true ∧
      ut ≠ UPDATE_TYPE_TPM20_EMPTYPLATFORMAUTH) := by
    rintro ⟨ha, hb⟩
    exact hb (h20 ha)
  have h5 : ¬p.sTpmState.tpm20restartRequired = true := by
    rw [hrestart]; exact Bool.false_ne_true
  have h6 : ¬p.sTpmState.tpm20InFailureMode = true := by
    rw [hfailure]; exact Bool.false_ne_true
  unfold CommandFlow_TpmUpdate_IsFirmwareUpdatable
  rw [if_neg h1, hut]
  simp only
  rw [if_neg h2, if_neg h3, if_neg h4, if_neg h5, if_neg h6, if_pos hcount]
  exact ⟨rfl, rfl, rfl, rfl⟩

/-- Witness for C7 (amended) at a concrete input: an unowned TPM1.2 with the
`tpm12-PP` update type and an exhausted counter is blocked. -/
theorem remainingUpdatesZero_blocks_witness :
    (CommandFlow_TpmUpdate_IsFirmwareUpdatable
        ⟨STRUCT_TYPE_TpmUpdate, true, STRUCT_SUBTYPE_IS_UPDATABLE, RC_SUCCESS,
          GENERIC_TRISTATE_STATE_NA,
          ⟨true, false, true, false, false, false, false, true, false⟩, 0, 0,
          "4.40.119.0"⟩
        isUpdatableDeferredPPEnv).unReturnCode = RC_E_FW_UPDATE_BLOCKED :=
  (remainingUpdatesZero_blocks _ isUpdatableDeferredPPEnv
    UPDATE_TYPE_TPM12_DEFERREDPP rfl rfl rfl
    (fun _ => ⟨Or.inl rfl, rfl⟩) (fun h => by cases h) rfl rfl rfl).2.1

/-! ## C7 config-file flow: `CommandFlow_TpmUpdate_ProceedUpdateConfig`

String handling mirrors the wide-character helpers of the source: version
strings are inspected character by character, the firmware file name is
filled into the `%ls_%ls_to_%ls_%ls.BIN` pattern, and the folder part of the
config file path is cut at the last path separator. -/

/-- Character of a wide string at an index (`wszName[i]`); the NUL
terminator past the end. -/
def wcharAt (s : String) (i : Nat) : Char :=
  s.data.getD i (Char.ofNat 0)

/-- The SPI-bus check of the source: `wszVersionName[0]` is `6` or `7` and
`wszVersionName[1]` is `.`. -/
def versionIsSPI (s : String) : Bool :=
  (wcharAt s 0 == '6' || wcharAt s 0 == '7') && wcharAt s 1 == '.'

/-- The LPC-bus check of the source: `wszVersionName[0]` is `4` or `5` and
`wszVersionName[1]` is `.`. -/
def versionIsLPC (s : String) : Bool :=
  (wcharAt s 0 == '4' || wcharAt s 0 == '5') && wcharAt s 1 == '.'

/-- Target-family check of the source: a target version starting `4.` or
`6.` names a TPM1.2 firmware. -/
def targetIsTpm12 (s : String) : Bool :=
  (wcharAt s 0 == '4' || wcharAt s 0 == '6') && wcharAt s 1 == '.'

/-- Target-family check of the source: a target version starting `5.` or
`7.` names a TPM2.0 firmware. -/
def targetIsTpm20 (s : String) : Bool :=
  (wcharAt s 0 == '5' || wcharAt s 0 == '7') && wcharAt s 1 == '.'

/-- Index of the last `/` or `\` in the character list (0 when none), as the
cut-off loop of the source computes it. -/
def lastSepIdx : List Char → Nat → Nat → Nat
  | [], _, acc => acc
  | c :: rest, i, acc =>
      lastSepIdx rest (i + 1) (if c = '/' ∨ c = '\\' then i else acc)

/-- The folder part of the config file path: the path cut after the last
separator; a bare file name becomes `.`, a file in the filesystem root
keeps the root slash. -/
def configDirPart (cfg : String) : String :=
  if lastSepIdx cfg.data 0 0 = 0 then
    (if wcharAt cfg 0 = '/' then "/" else ".")
  else
    String.mk (cfg.data.take (lastSepIdx cfg.data 0 0))

/-- Modelled from the spec: `Platform_StringConcatenatePaths` (not among the
sources) joins two path components with the platform path separator. -/
def Platform_StringConcatenatePaths (a b : String) : String :=
  a ++ "/" ++ b

/-- The `TPM_FIRMWARE_FILE_NAME_PATTERN` fill of the source:
`<srcFamily>_<currentVersion>_to_<tgtFamily>_<tgtVersion>.BIN`. -/
def firmwareFileName (srcFam ver tgtFam tgtVer : String) : String :=
  srcFam ++ "_" ++ ver ++ "_to_" ++ tgtFam ++ "_" ++ tgtVer ++ ".BIN"

/-- The full firmware image path composed by the source: the config file's
folder, then the configured firmware folder unless it is the current
directory (`.`, `./` or `.\`), then the filled file name pattern. -/
def composedFirmwarePath (cfgPath folder name : String) : String :=
  if folder = "." ∨ folder = "./" ∨ folder = ".\\" then
    Platform_StringConcatenatePaths (configDirPart cfgPath) name
  else
    Platform_StringConcatenatePaths
      (Platform_StringConcatenatePaths (configDirPart cfgPath) folder) name

/-- Source family string: `TPM12` on a TPM1.2, `TPM20` on a TPM2.0, and no
string otherwise (the source then fails with `RC_E_FAIL`). -/
def sourceFamilyString (a : TpmStateAttribs) : Option String :=
  if a.tpm12 = true then some "TPM12"
  else if a.tpm20 = true then some "TPM20"
  else none

/-- Target family string derived from the target version's first characters:
`4.`/`6.` gives `TPM12`, `5.`/`7.` gives `TPM20`, anything else is the
`RC_E_INVALID_SETTING` case. -/
def targetFamilyString (tgt : String) : Option String :=
  if targetIsTpm12 tgt = true then some "TPM12"
  else if targetIsTpm20 tgt = true then some "TPM20"
  else none

/-- Modelled from the spec: outcome of `Utility_StringGetLine` (not among
the sources) — the next line of the buffer, `RC_E_END_OF_STRING` when the
buffer is exhausted, or a bad-parameter failure. -/
inductive GetLineRes where
  | ok (line : String)
  | endOfString
  | badParam
  deriving Repr, DecidableEq

/-- Collaborator outcomes consumed by
`CommandFlow_TpmUpdate_ProceedUpdateConfig`. -/
structure ProceedUpdateConfigEnv where
  /-- Outcome of `PropertyStorage_GetValueByKey(PROPERTY_CONFIG_FILE_PATH, ...)`. -/
  configFilePathProp : Option String
  /-- Outcome of `FileIO_Exists` on the config file path. -/
  configFileExists : Bool
  /-- Return code of `Config_ParseCustom` over the config file. -/
  parseResult : Nat
  /-- Outcome of `PROPERTY_CONFIG_TARGET_FIRMWARE_VERSION_SPI` (`version_SLB9670`). -/
  versionSPIProp : Option String
  /-- Outcome of `PROPERTY_CONFIG_TARGET_FIRMWARE_VERSION_LPC` (`version_SLB966x`). -/
  versionLPCProp : Option String
  /-- Outcome of `PROPERTY_CONFIG_FIRMWARE_FOLDER_PATH`. -/
  firmwareFolderProp : Option String
  /-- Outcome of `FileIO_Exists` on the composed firmware image path. -/
  firmwareFileExists : Bool
  /-- Outcome of `PROPERTY_CONFIG_FILE_UPDATE_TYPE12`. -/
  updateType12Prop : Option Nat
  /-- Outcome of `PROPERTY_CONFIG_FILE_UPDATE_TYPE20`. -/
  updateType20Prop : Option Nat
  /-- Outcome of `PropertyStorage_ChangeUIntegerValueByKey(PROPERTY_UPDATE_TYPE, ...)`
  success. -/
  changeUpdateTypeOk : Bool
  /-- Outcome of `PropertyStorage_AddKeyValuePair(PROPERTY_FIRMWARE_PATH, ...)`
  success. -/
  addFirmwarePathOk : Bool
  /-- Outcome of `FileIO_Exists(TPM_FACTORY_UPD_RUNDATA_FILE)`. -/
  rundataExists : Bool
  /-- Outcome of `FileIO_ReadFileToStringBuffer` success on the run-data file. -/
  rundataReadOk : Bool
  /-- Outcome of `Utility_StringGetLine` outcome on the run-data content. -/
  rundataLine : GetLineRes
  deriving Repr, DecidableEq

/-- Result of `CommandFlow_TpmUpdate_ProceedUpdateConfig`: the envelope
return value, the written `IfxUpdate` fields, and the property-storage
effects (`PROPERTY_FIRMWARE_PATH` added, `PROPERTY_UPDATE_TYPE` changed,
`s_fUpdateThroughConfigFile` raised). -/
structure ProceedUpdateConfigRes where
  unReturnValue : Nat
  unReturnCode : Nat
  unSubType : Nat
  unNewFirmwareValid : Nat
  wszUsedFirmwareImage : String
  firmwarePathProp : Option String
  updateTypeChangedTo : Option Nat
  updateThroughConfigFile : Bool
  deriving Repr, DecidableEq

/-- The non-boot-loader continuation of
`CommandFlow_TpmUpdate_ProceedUpdateConfig` once the target version string
`tgt` has been selected by bus family: the up-to-date short-circuit, family
detection, file-name composition, existence check, and the final
property-storage updates. -/
def CommandFlow_TpmUpdate_ProceedUpdateConfig_withTarget (p : IfxUpdateIn)
    (env : ProceedUpdateConfigEnv) (cfgPath tgt : String) :
    ProceedUpdateConfigRes :=
  if tgt = p.wszVersionName then
    ⟨RC_SUCCESS, RC_E_ALREADY_UP_TO_DATE, STRUCT_SUBTYPE_IS_UPDATABLE,
      GENERIC_TRISTATE_STATE_NO, "", none, none, false⟩
  else match env.firmwareFolderProp with
  | none =>
    ⟨RC_E_FAIL, RC_E_FAIL, STRUCT_SUBTYPE_IS_UPDATABLE,
      GENERIC_TRISTATE_STATE_NA, "", none, none, false⟩
  | some folder =>
    match sourceFamilyString p.sTpmState with
    | none =>
      ⟨RC_E_FAIL, RC_E_FAIL, STRUCT_SUBTYPE_IS_UPDATABLE,
        GENERIC_TRISTATE_STATE_NA, "", none, none, false⟩
    | some srcFam =>
      match targetFamilyString tgt with
      | none =>
        ⟨RC_E_INVALID_SETTING, RC_E_FAIL, STRUCT_SUBTYPE_IS_UPDATABLE,
          GENERIC_TRISTATE_STATE_NA, "", none, none, false⟩
      | some tgtFam =>
        if env.firmwareFileExists = false then
          ⟨RC_E_FIRMWARE_UPDATE_NOT_FOUND, RC_E_FAIL,
            STRUCT_SUBTYPE_IS_UPDATABLE, GENERIC_TRISTATE_STATE_NA,
            firmwareFileName srcFam p.wszVersionName tgtFam tgt, none, none,
            false⟩
        else match
          (if p.sTpmState.tpm12 = true then env.updateType12Prop
            else env.updateType20Prop) with
        | none =>
          ⟨RC_E_FAIL, RC_E_FAIL, STRUCT_SUBTYPE_IS_UPDATABLE,
            GENERIC_TRISTATE_STATE_NA,
            firmwareFileName srcFam p.wszVersionName tgtFam tgt, none, none,
            false⟩
        | some ut =>
          if env.changeUpdateTypeOk = false then
            ⟨RC_E_FAIL, RC_E_FAIL, STRUCT_SUBTYPE_IS_UPDATABLE,
              GENERIC_TRISTATE_STATE_NA,
              firmwareFileName srcFam p.wszVersionName tgtFam tgt, none, none,
              false⟩
          else if env.addFirmwarePathOk = false then
            ⟨RC_E_FAIL, RC_E_FAIL, STRUCT_SUBTYPE_IS_UPDATABLE,
              GENERIC_TRISTATE_STATE_NA,
              firmwareFileName srcFam p.wszVersionName tgtFam tgt, none,
              some ut, false⟩
          else
            ⟨RC_SUCCESS, RC_SUCCESS, STRUCT_SUBTYPE_IS_UPDATABLE,
              GENERIC_TRISTATE_STATE_NA,
              firmwareFileName srcFam p.wszVersionName tgtFam tgt,
              some (composedFirmwarePath cfgPath folder
                (firmwareFileName srcFam p.wszVersionName tgtFam tgt)),
              some ut, true⟩

/-- Embedding of `CommandFlow_TpmUpdate_ProceedUpdateConfig` from
`CommandFlow_TpmUpdate.c`: the config-file update flow — config file lookup,
existence check, parse, then either the version-selection logic (chip not in
boot-loader mode) or the run-data resume path (boot-loader mode). -/
def CommandFlow_TpmUpdate_ProceedUpdateConfig (p : IfxUpdateIn)
    (env : ProceedUpdateConfigEnv) : ProceedUpdateConfigRes :=
  if p.unType ≠ STRUCT_TYPE_TpmUpdate ∨ p.sizeOk = false then
    ⟨RC_E_BAD_PARAMETER, p.unReturnCode, p.unSubType, p.unNewFirmwareValid,
      "", none, none, false⟩
  else match env.configFilePathProp with
  | none =>
    ⟨RC_E_FAIL, RC_E_FAIL, STRUCT_SUBTYPE_IS_UPDATABLE,
      GENERIC_TRISTATE_STATE_NA, "", none, none, false⟩
  | some cfgPath =>
    if env.configFileExists = false then
      ⟨RC_E_INVALID_CONFIG_OPTION, RC_E_FAIL, STRUCT_SUBTYPE_IS_UPDATABLE,
        GENERIC_TRISTATE_STATE_NA, "", none, none, false⟩
    else if env.parseResult ≠ RC_SUCCESS then
      ⟨env.parseResult, RC_E_FAIL, STRUCT_SUBTYPE_IS_UPDATABLE,
        GENERIC_TRISTATE_STATE_NA, "", none, none, false⟩
    else if p.sTpmState.bootLoader = false then
      if versionIsSPI p.wszVersionName = true then
        match env.versionSPIProp with
        | none =>
          ⟨RC_E_FAIL, RC_E_FAIL, STRUCT_SUBTYPE_IS_UPDATABLE,
            GENERIC_TRISTATE_STATE_NA, "", none, none, false⟩
        | some tgt =>
          CommandFlow_TpmUpdate_ProceedUpdateConfig_withTarget p env cfgPath
            tgt
      else if versionIsLPC p.wszVersionName = true then
        match env.versionLPCProp with
        | none =>
          ⟨RC_E_FAIL, RC_E_FAIL, STRUCT_SUBTYPE_IS_UPDATABLE,
            GENERIC_TRISTATE_STATE_NA, "", none, none, false⟩
        | some tgt =>
          CommandFlow_TpmUpdate_ProceedUpdateConfig_withTarget p env cfgPath
            tgt
      else
        ⟨RC_E_UNSUPPORTED_CHIP, RC_E_FAIL, STRUCT_SUBTYPE_IS_UPDATABLE,
          GENERIC_TRISTATE_STATE_NA, "", none, none, false⟩
    else
      if env.rundataExists = false then
        ⟨RC_E_RESUME_RUNDATA_NOT_FOUND, RC_E_FAIL,
          STRUCT_SUBTYPE_IS_UPDATABLE, GENERIC_TRISTATE_STATE_NA, "", none,
          none, false⟩
      else if env.rundataReadOk = false then
        ⟨RC_E_FAIL, RC_E_FAIL, STRUCT_SUBTYPE_IS_UPDATABLE,
          GENERIC_TRISTATE_STATE_NA, "", none, none, false⟩
      else match env.rundataLine with
      | GetLineRes.badParam =>
        ⟨RC_E_BAD_PARAMETER, RC_E_FAIL, STRUCT_SUBTYPE_IS_UPDATABLE,
          GENERIC_TRISTATE_STATE_NA, "", none, none, false⟩
      | GetLineRes.endOfString =>
        ⟨RC_SUCCESS, RC_E_FAIL, STRUCT_SUBTYPE_IS_UPDATABLE,
          GENERIC_TRISTATE_STATE_NA, "", none, none, false⟩
      | GetLineRes.ok line =>
        if env.addFirmwarePathOk = false then
          ⟨RC_E_FAIL, RC_E_FAIL, STRUCT_SUBTYPE_IS_UPDATABLE,
            GENERIC_TRISTATE_STATE_NA, "", none, none, false⟩
        else
          ⟨RC_SUCCESS, RC_SUCCESS, STRUCT_SUBTYPE_IS_UPDATABLE,
            GENERIC_TRISTATE_STATE_NA, "", some line, none, false⟩

/-- A version string passing the LPC-bus check fails the SPI-bus check: the
first character cannot be both in `{4,5}` and in `{6,7}`. -/
theorem versionLPC_not_SPI {s : String} (h : versionIsLPC s = true) :
    versionIsSPI s = false := by
  have h1 := h
  unfold versionIsLPC at h1
  rcases (Bool.and_eq_true _ _).mp h1 with ⟨hc, hdot⟩
  rcases (Bool.or_eq_true _ _).mp hc with h4 | h5
  · have hch : wcharAt s 0 = '4' := eq_of_beq h4
    simp [versionIsSPI, hch]
  · have hch : wcharAt s 0 = '5' := eq_of_beq h5
    simp [versionIsSPI, hch]

/-- C5: with the chip probed in boot-loader mode (and the config-file flow
otherwise reachable: valid structure, config path property set, config file
present, config parse succeeding), `CommandFlow_TpmUpdate_ProceedUpdateConfig`
returns `RC_E_RESUME_RUNDATA_NOT_FOUND` if and only if the run-data file is
absent; and when the file is present and readable, the firmware image path is
taken from its single line (the version-selection logic produces nothing) and
the flow reports success in both return codes. -/
theorem bootLoader_resume_rundata (p : IfxUpdateIn)
    (env : ProceedUpdateConfigEnv) (cfgPath : String)
    (htype : p.unType = STRUCT_TYPE_TpmUpdate) (hsize : p.sizeOk = true)
    (hboot : p.sTpmState.bootLoader = true)
    (hcfg : env.configFilePathProp = some cfgPath)
    (hex : env.configFileExists = true)
    (hparse : env.parseResult = RC_SUCCESS) :
    ((CommandFlow_TpmUpdate_ProceedUpdateConfig p env).unReturnValue =
        RC_E_RESUME_RUNDATA_NOT_FOUND ↔ env.rundataExists = false) ∧
    (∀ line : String, env.rundataReadOk = true →
      env.rundataLine = GetLineRes.ok line → env.addFirmwarePathOk = true →
      env.rundataExists = true →
      (CommandFlow_TpmUpdate_ProceedUpdateConfig p env).firmwarePathProp =
          some line ∧
      (CommandFlow_TpmUpdate_ProceedUpdateConfig p env).unReturnCode =
          RC_SUCCESS ∧
      (CommandFlow_TpmUpdate_ProceedUpdateConfig p env).unReturnValue =
          RC_SUCCESS) := by
  constructor
  · cases hrd : env.rundataExists <;> cases hrr : env.rundataReadOk <;>
      cases hl : env.rundataLine <;> cases ha : env.addFirmwarePathOk <;>
      simp [CommandFlow_TpmUpdate_ProceedUpdateConfig, htype, hsize, hboot,
        hcfg, hex, hparse, hrd, hrr, hl, ha, RC_SUCCESS, RC_E_FAIL,
        RC_E_BAD_PARAMETER, RC_E_RESUME_RUNDATA_NOT_FOUND,
        STRUCT_TYPE_TpmUpdate]
  · intro line hrr hl ha hrd
    simp [CommandFlow_TpmUpdate_ProceedUpdateConfig, htype, hsize, hboot,
      hcfg, hex, hparse, hrd, hrr, hl, ha, RC_SUCCESS,
      STRUCT_TYPE_TpmUpdate]

/-- A probed state in boot-loader mode, used by concrete witnesses. -/
def bootLoaderState : TpmStateAttribs :=
  ⟨false, false, false, false, false, false, true, true, false⟩

/-- An `IfxUpdate` structure for a chip in boot-loader mode, used by
concrete witnesses.  The chip reports no version name in this mode. -/
def bootLoaderUpdate : IfxUpdateIn :=
  ⟨STRUCT_TYPE_TpmUpdate, true, STRUCT_SUBTYPE_IS_UPDATABLE, RC_SUCCESS,
    GENERIC_TRISTATE_STATE_NA, bootLoaderState, 0, 64, ""⟩

/-- A resume environment: config file present and parsed, run-data file
present holding `/tmp/img.bin`. -/
def resumeEnv : ProceedUpdateConfigEnv :=
  ⟨some "cfg.ini", true, RC_SUCCESS, some "7.85.4555.0", some "4.43.257.0",
    some "firmware", true, some UPDATE_TYPE_TPM12_DEFERREDPP,
    some UPDATE_TYPE_TPM20_EMPTYPLATFORMAUTH, true, true, true, true,
    GetLineRes.ok "/tmp/img.bin"⟩

/-- Witness for C5 at concrete inputs: in boot-loader mode with the run-data
file holding `/tmp/img.bin`, that path becomes the firmware path. -/
theorem bootLoader_resume_rundata_witness :
    (CommandFlow_TpmUpdate_ProceedUpdateConfig bootLoaderUpdate
        resumeEnv).firmwarePathProp = some "/tmp/img.bin" :=
  ((bootLoader_resume_rundata bootLoaderUpdate resumeEnv "cfg.ini" rfl rfl rfl
    rfl rfl rfl).2 "/tmp/img.bin" rfl rfl rfl rfl).1

/-- C6: in the config-file flow on a chip not in boot-loader mode, when the
current firmware version string equals the target version selected by the
current version's family prefix, the flow short-circuits with inner code
`RC_E_ALREADY_UP_TO_DATE`, sets `new_firmware_valid` to `No`, returns
envelope success, and neither composes a firmware image name nor records a
firmware path to load. -/
theorem configFlow_alreadyUpToDate (p : IfxUpdateIn)
    (env : ProceedUpdateConfigEnv) (cfgPath tgt : String)
    (htype : p.unType = STRUCT_TYPE_TpmUpdate) (hsize : p.sizeOk = true)
    (hboot : p.sTpmState.bootLoader = false)
    (hcfg : env.configFilePathProp = some cfgPath)
    (hex : env.configFileExists = true)
    (hparse : env.parseResult = RC_SUCCESS)
    (hfam : versionIsSPI p.wszVersionName = true ∨
      versionIsLPC p.wszVersionName = true)
    (hsel : (if versionIsSPI p.wszVersionName = true then env.versionSPIProp
      else env.versionLPCProp) = some tgt)
    (heq : tgt = p.wszVersionName) :
    (CommandFlow_TpmUpdate_ProceedUpdateConfig p env).unReturnCode =
        RC_E_ALREADY_UP_TO_DATE ∧
    (CommandFlow_TpmUpdate_ProceedUpdateConfig p env).unNewFirmwareValid =
        GENERIC_TRISTATE_STATE_NO ∧
    (CommandFlow_TpmUpdate_ProceedUpdateConfig p env).unReturnValue =
        RC_SUCCESS ∧
    (CommandFlow_TpmUpdate_ProceedUpdateConfig p env).wszUsedFirmwareImage =
        "" ∧
    (CommandFlow_TpmUpdate_ProceedUpdateConfig p env).firmwarePathProp =
        none := by
  rcases hfam with hspi | hlpc
  · rw [if_pos hspi] at hsel
    simp [CommandFlow_TpmUpdate_ProceedUpdateConfig,
      CommandFlow_TpmUpdate_ProceedUpdateConfig_withTarget, htype, hsize,
      hboot, hcfg, hex, hparse, hspi, hsel, heq, RC_SUCCESS,
      STRUCT_TYPE_TpmUpdate]
  · have hnspi := versionLPC_not_SPI hlpc
    rw [if_neg (by rw [hnspi]; exact Bool.false_ne_true)] at hsel
    simp [CommandFlow_TpmUpdate_ProceedUpdateConfig,
      CommandFlow_TpmUpdate_ProceedUpdateConfig_withTarget, htype, hsize,
      hboot, hcfg, hex, hparse, hnspi, hlpc, hsel, heq, RC_SUCCESS,
      STRUCT_TYPE_TpmUpdate]

/-- An `IfxUpdate` structure for an operational TPM2.0 on SPI with current
version `7.85.4555.0`, used by concrete witnesses. -/
def tpm20SpiUpdate : IfxUpdateIn :=
  ⟨STRUCT_TYPE_TpmUpdate, true, STRUCT_SUBTYPE_IS_UPDATABLE, RC_SUCCESS,
    GENERIC_TRISTATE_STATE_NA, tpm20State, 0, 64, "7.85.4555.0"⟩

/-- A config environment whose SPI target version equals the chip's current
version (`version_SLB9670=7.85.4555.0`), used by concrete witnesses. -/
def upToDateEnv : ProceedUpdateConfigEnv :=
  ⟨some "cfg.ini", true, RC_SUCCESS, some "7.85.4555.0", some "4.43.257.0",
    some "firmware", true, some UPDATE_TYPE_TPM12_DEFERREDPP,
    some UPDATE_TYPE_TPM20_EMPTYPLATFORMAUTH, true, true, false, true,
    GetLineRes.endOfString⟩

/-- Witness for C6 at the spec's concrete scenario: current version
`7.85.4555.0`, configured `version_SLB9670=7.85.4555.0`, yielding
`RC_E_ALREADY_UP_TO_DATE`. -/
theorem configFlow_alreadyUpToDate_witness :
    (CommandFlow_TpmUpdate_ProceedUpdateConfig tpm20SpiUpdate
        upToDateEnv).unReturnCode = RC_E_ALREADY_UP_TO_DATE :=
  (configFlow_alreadyUpToDate tpm20SpiUpdate upToDateEnv "cfg.ini"
    "7.85.4555.0" rfl rfl rfl rfl rfl rfl (Or.inl (by decide)) (by decide)
    rfl).1

/-! ## C2 device channel: `Linux/TpmIO.c`

The connection state is the global flag `g_fConnected`, threaded explicitly.
`TPM_DEVICE_ACCESS_MEMORY_BASED` and `TPM_DEVICE_ACCESS_DRIVER` carry the
values the CLI documents for `-access-mode` (`1` and `3`). -/

/-- Access-mode value `1`: memory-mapped (TIS) backend. -/
def TPM_DEVICE_ACCESS_MEMORY_BASED : Nat := 1

/-- Access-mode value `3`: Linux TPM driver backend. -/
def TPM_DEVICE_ACCESS_DRIVER : Nat := 3

/-- Collaborator outcomes consumed by the `TPMIO_*` functions. -/
structure TpmIoEnv where
  /-- Outcome of `PropertyStorage_GetUIntegerValueByKey(PROPERTY_TPM_DEVICE_ACCESS_MODE,
  ...)`. -/
  accessModeProp : Option Nat
  /-- Outcome of `PropertyStorage_GetUIntegerValueByKey(PROPERTY_LOCALITY, ...)`. -/
  localityProp : Option Nat
  /-- Return code of `DeviceAccessTpmDriver_Initialize`. -/
  driverInitResult : Nat
  /-- Return code of `DeviceAccess_Initialize`. -/
  deviceInitResult : Nat
  /-- Return code of `TIS_IsAccessValid`. -/
  tisAccessValidRet : Nat
  /-- The `TPM.ACCESS.VALID` flag reported by `TIS_IsAccessValid`. -/
  tisAccessValidFlag : Bool
  /-- Outcome of `seteuid(getuid())` success. -/
  seteuidOk : Bool
  /-- Outcome of `setegid(getgid())` success. -/
  setegidOk : Bool
  /-- Return code of `DeviceAccessTpmDriver_Uninitialize`. -/
  driverUninitResult : Nat
  /-- Return code of `DeviceAccess_Uninitialize`. -/
  deviceUninitResult : Nat
  /-- Return code of `TIS_TransceiveLPC`. -/
  tisTransmitResult : Nat
  /-- Return code of `DeviceAccessTpmDriver_Transmit`. -/
  driverTransmitResult : Nat
  /-- The request/response buffer pointers of `TPMIO_Transmit` are
  non-NULL. -/
  buffersValid : Bool
  deriving Repr, DecidableEq

/-- The `switch (unTpmDeviceAccessModeCfg)` of `TPMIO_Connect`: driver
initialization on the driver backend; locality lookup, device
initialization and the `TPM.ACCESS.VALID` probe on the memory-mapped
backend; `RC_E_INVALID_SETTING` for an unknown mode.  The memory-mapped
case re-checks the connected flag first, as the source does. -/
def TPMIO_Connect_switch (connected : Bool) (env : TpmIoEnv) (mode : Nat) :
    Nat :=
  if mode = TPM_DEVICE_ACCESS_DRIVER then
    env.driverInitResult
  else if mode = TPM_DEVICE_ACCESS_MEMORY_BASED then
    if connected = true then RC_E_ALREADY_CONNECTED
    else match env.localityProp with
    | none => RC_E_FAIL
    | some _ =>
      if env.deviceInitResult ≠ RC_SUCCESS then env.deviceInitResult
      else if env.tisAccessValidRet ≠ RC_SUCCESS then env.tisAccessValidRet
      else if env.tisAccessValidFlag = false then RC_E_NOT_READY
      else RC_SUCCESS
  else
    RC_E_INVALID_SETTING

/-- Embedding of `TPMIO_Connect` from `Linux/TpmIO.c`: access-mode lookup, the
already-connected guard, the backend-specific connect, then the privilege
drop (`seteuid`/`setegid`); only after all of these does `g_fConnected`
become `TRUE`.  Returns the new code together with the new connected flag. -/
def TPMIO_Connect (connected : Bool) (env : TpmIoEnv) : Nat × Bool :=
  match env.accessModeProp with
  | none => (RC_E_INTERNAL, connected)
  | some mode =>
    if connected = true then
      (RC_E_ALREADY_CONNECTED, connected)
    else if TPMIO_Connect_switch connected env mode = RC_SUCCESS then
      if env.seteuidOk = false then (RC_E_INTERNAL, connected)
      else if env.setegidOk = false then (RC_E_INTERNAL, connected)
      else (RC_SUCCESS, true)
    else
      (TPMIO_Connect_switch connected env mode, connected)

/-- Embedding of `TPMIO_Disconnect` from `Linux/TpmIO.c`: the not-connected guard, the
access-mode sanity check, then the backend-specific teardown; `g_fConnected`
is cleared after the switch even when the teardown itself failed. -/
def TPMIO_Disconnect (connected : Bool) (env : TpmIoEnv) : Nat × Bool :=
  if connected = false then
    (RC_E_NOT_CONNECTED, connected)
  else match env.accessModeProp with
  | none => (RC_E_INTERNAL, connected)
  | some mode =>
    if mode ≠ TPM_DEVICE_ACCESS_MEMORY_BASED ∧
        mode ≠ TPM_DEVICE_ACCESS_DRIVER then
      (RC_E_INTERNAL, connected)
    else if mode = TPM_DEVICE_ACCESS_MEMORY_BASED then
      match env.localityProp with
      | none => (RC_E_FAIL, false)
      | some _ => (env.deviceUninitResult, false)
    else
      (env.driverUninitResult, false)

/-- Embedding of `TPMIO_Transmit` from `Linux/TpmIO.c`: the NULL-pointer check, the
not-connected guard, the access-mode sanity check, then the
backend-specific transceive.  The connected flag never changes. -/
def TPMIO_Transmit (connected : Bool) (env : TpmIoEnv) : Nat :=
  if env.buffersValid = false then
    RC_E_BAD_PARAMETER
  else if connected = false then
    RC_E_NOT_CONNECTED
  else match env.accessModeProp with
  | none => RC_E_INTERNAL
  | some mode =>
    if mode ≠ TPM_DEVICE_ACCESS_MEMORY_BASED ∧
        mode ≠ TPM_DEVICE_ACCESS_DRIVER then
      RC_E_INTERNAL
    else if mode = TPM_DEVICE_ACCESS_MEMORY_BASED then
      match env.localityProp with
      | none => RC_E_FAIL
      | some _ => env.tisTransmitResult
    else
      env.driverTransmitResult

/-- C9: the device channel enforces connection discipline — a `Connect`
while already connected returns `RC_E_ALREADY_CONNECTED` (once the
access-mode property is readable); a `Transmit` with valid buffers before
any successful `Connect` returns `RC_E_NOT_CONNECTED`; a `Disconnect`
without a prior connect returns `RC_E_NOT_CONNECTED`; and starting
disconnected, the connected flag becomes `true` exactly when `Connect`
returns success, which requires the privilege drop (`seteuid` and `setegid`)
to have succeeded. -/
theorem tpmIo_connection_discipline :
    (∀ (env : TpmIoEnv) (mode : Nat), env.accessModeProp = some mode →
      TPMIO_Connect true env = (RC_E_ALREADY_CONNECTED, true)) ∧
    (∀ env : TpmIoEnv, env.buffersValid = true →
      TPMIO_Transmit false env = RC_E_NOT_CONNECTED) ∧
    (∀ env : TpmIoEnv, TPMIO_Disconnect false env =
      (RC_E_NOT_CONNECTED, false)) ∧
    (∀ env : TpmIoEnv,
      ((TPMIO_Connect false env).2 = true ↔
        (TPMIO_Connect false env).1 = RC_SUCCESS) ∧
      ((TPMIO_Connect false env).2 = true →
        env.seteuidOk = true ∧ env.setegidOk = true)) := by
  refine ⟨?_, ?_, ?_, ?_⟩
  · intro env mode hmode
    simp [TPMIO_Connect, hmode]
  · intro env hb
    simp [TPMIO_Transmit, hb, RC_E_NOT_CONNECTED, RC_E_BAD_PARAMETER]
  · intro env
    simp [TPMIO_Disconnect]
  · intro env
    cases hmode : env.accessModeProp with
    | none =>
      constructor
      · simp [TPMIO_Connect, hmode, RC_E_INTERNAL, RC_SUCCESS]
      · intro h
        simp [TPMIO_Connect, hmode] at h
    | some mode =>
      by_cases hsw : TPMIO_Connect_switch false env mode = RC_SUCCESS
      · cases hse : env.seteuidOk <;> cases hsg : env.setegidOk <;>
          simp [TPMIO_Connect, hmode, hsw, hse, hsg, RC_E_INTERNAL,
            RC_SUCCESS]
      · constructor
        · simp [TPMIO_Connect, hmode, hsw]
        · intro h
          simp [TPMIO_Connect, hmode, hsw] at h

/-- A benign driver-mode environment for the device channel, used by
concrete witnesses. -/
def driverModeEnv : TpmIoEnv :=
  ⟨some TPM_DEVICE_ACCESS_DRIVER, some 0, RC_SUCCESS, RC_SUCCESS, RC_SUCCESS,
    true, true, true, RC_SUCCESS, RC_SUCCESS, RC_SUCCESS, RC_SUCCESS, true⟩

/-- Witness for C9 at a concrete input: a second `Connect` in driver mode
reports `RC_E_ALREADY_CONNECTED`. -/
theorem tpmIo_connection_discipline_witness :
    TPMIO_Connect true driverModeEnv = (RC_E_ALREADY_CONNECTED, true) :=
  tpmIo_connection_discipline.1 driverModeEnv TPM_DEVICE_ACCESS_DRIVER rfl

/-! ## Clear-ownership flow: `CommandFlow_Tpm12ClearOwnership.c`

`FirmwareUpdate_CalculateState`, `FirmwareUpdate_CheckOwnerAuthorization`
and the TPM1.2 command functions live in modules that are not among the
sources; their outcomes are environment values. -/

/-- Collaborator outcomes consumed by
`CommandFlow_Tpm12ClearOwnership_Execute`. -/
structure ClearOwnershipEnv where
  /-- Return code of `FirmwareUpdate_CalculateState`. -/
  calculateStateResult : Nat
  /-- The `TPM_STATE.attribs` filled in by a successful
  `FirmwareUpdate_CalculateState`. -/
  calculatedState : TpmStateAttribs
  /-- Return code of `FirmwareUpdate_CheckOwnerAuthorization` on the default
  owner-authorization hash. -/
  checkOwnerAuthResult : Nat
  /-- Return code of `TSS_TPM_OIAP`. -/
  oiapResult : Nat
  /-- Return code of `TSS_TPM_OwnerClear`. -/
  ownerClearResult : Nat
  deriving Repr, DecidableEq

/-- The `do ... while(false)` body of
`CommandFlow_Tpm12ClearOwnership_Execute`: state probe, mode classification
in source order (owned TPM1.2 continues; TPM2.0, unowned TPM1.2,
non-Infineon, unsupported chip each break with their code), the
owner-authorization check with the `TPM_AUTHFAIL` mapping, then
`TPM_OIAP` and `TPM_OwnerClear`. -/
def CommandFlow_Tpm12ClearOwnership_body (env : ClearOwnershipEnv) : Nat :=
  if env.calculateStateResult ≠ RC_SUCCESS then
    env.calculateStateResult
  else if env.calculatedState.tpm12 = true ∧
      env.calculatedState.tpm12owner = true then
    if env.checkOwnerAuthResult ≠ RC_SUCCESS then
      if env.checkOwnerAuthResult ^^^ RC_TPM_MASK = TPM_AUTHFAIL then
        RC_E_TPM12_INVALID_OWNERAUTH
      else
        env.checkOwnerAuthResult
    else if env.oiapResult ≠ RC_SUCCESS then
      env.oiapResult
    else if env.ownerClearResult ≠ RC_SUCCESS then
      env.ownerClearResult
    else
      RC_SUCCESS
  else if env.calculatedState.tpm20 = true then
    RC_E_TPM_NOT_SUPPORTED_FEATURE
  else if env.calculatedState.tpm12 = true then
    RC_E_TPM12_NO_OWNER
  else if env.calculatedState.infineon = false then
    RC_E_NO_IFX_TPM
  else if env.calculatedState.unsupportedChip = true then
    RC_E_UNSUPPORTED_CHIP
  else
    RC_E_UNSUPPORTED_CHIP

/-- Embedding of `CommandFlow_Tpm12ClearOwnership_Execute` from
`CommandFlow_Tpm12ClearOwnership.c`, for a non-NULL input structure: the
body's outcome is stored as the structure's inner return code and the
envelope return value is overwritten with `RC_SUCCESS`.  The pair is
(envelope return value, stored inner return code). -/
def CommandFlow_Tpm12ClearOwnership_Execute (env : ClearOwnershipEnv) :
    Nat × Nat :=
  (RC_SUCCESS, CommandFlow_Tpm12ClearOwnership_body env)

/-- C10: for every non-NULL input structure,
`CommandFlow_Tpm12ClearOwnership_Execute` returns envelope success and
stores the flow's outcome as the inner return code; after a successful state
probe, the classification follows the source order — on a TPM2.0 (not an
owned TPM1.2) the inner code is `RC_E_TPM_NOT_SUPPORTED_FEATURE`, on an
unowned TPM1.2 it is `RC_E_TPM12_NO_OWNER`, on a chip of neither family
from another vendor it is `RC_E_NO_IFX_TPM`, on an unsupported Infineon
chip of neither family it is `RC_E_UNSUPPORTED_CHIP`, and on an owned
TPM1.2 whose owner-authorization check fails with the chip error
`TPM_AUTHFAIL` it is `RC_E_TPM12_INVALID_OWNERAUTH`. -/
theorem clearOwnership_classification :
    (∀ env : ClearOwnershipEnv,
      (CommandFlow_Tpm12ClearOwnership_Execute env).1 = RC_SUCCESS ∧
      (CommandFlow_Tpm12ClearOwnership_Execute env).2 =
        CommandFlow_Tpm12ClearOwnership_body env) ∧
    (∀ env : ClearOwnershipEnv,
      env.calculateStateResult = RC_SUCCESS →
      ((env.calculatedState.tpm20 = true →
        ¬(env.calculatedState.tpm12 = true ∧
          env.calculatedState.tpm12owner = true) →
        (CommandFlow_Tpm12ClearOwnership_Execute env).2 =
          RC_E_TPM_NOT_SUPPORTED_FEATURE) ∧
      (env.calculatedState.tpm12 = true →
        env.calculatedState.tpm12owner = false →
        env.calculatedState.tpm20 = false →
        (CommandFlow_Tpm12ClearOwnership_Execute env).2 =
          RC_E_TPM12_NO_OWNER) ∧
      (env.calculatedState.tpm12 = false →
        env.calculatedState.tpm20 = false →
        env.calculatedState.infineon = false →
        (CommandFlow_Tpm12ClearOwnership_Execute env).2 =
          RC_E_NO_IFX_TPM) ∧
      (env.calculatedState.tpm12 = false →
        env.calculatedState.tpm20 = false →
        env.calculatedState.infineon = true →
        env.calculatedState.unsupportedChip = true →
        (CommandFlow_Tpm12ClearOwnership_Execute env).2 =
          RC_E_UNSUPPORTED_CHIP) ∧
      (env.calculatedState.tpm12 = true →
        env.calculatedState.tpm12owner = true →
        env.checkOwnerAuthResult = RC_TPM_MASK ||| TPM_AUTHFAIL →
        (CommandFlow_Tpm12ClearOwnership_Execute env).2 =
          RC_E_TPM12_INVALID_OWNERAUTH))) := by
  have hmask : (RC_TPM_MASK ||| TPM_AUTHFAIL) ^^^ RC_TPM_MASK =
      TPM_AUTHFAIL := by decide
  have hmaskne : RC_TPM_MASK ||| TPM_AUTHFAIL ≠ RC_SUCCESS := by decide
  constructor
  · intro env
    exact ⟨rfl, rfl⟩
  · intro env hcalc
    refine ⟨?_, ?_, ?_, ?_, ?_⟩
    · intro h20 hno
      simp [CommandFlow_Tpm12ClearOwnership_Execute,
        CommandFlow_Tpm12ClearOwnership_body, hcalc, h20, hno]
    · intro h12 hown h20
      simp [CommandFlow_Tpm12ClearOwnership_Execute,
        CommandFlow_Tpm12ClearOwnership_body, hcalc, h12, hown, h20]
    · intro h12 h20 hifx
      simp [CommandFlow_Tpm12ClearOwnership_Execute,
        CommandFlow_Tpm12ClearOwnership_body, hcalc, h12, h20, hifx]
    · intro h12 h20 hifx hunsup
      simp [CommandFlow_Tpm12ClearOwnership_Execute,
        CommandFlow_Tpm12ClearOwnership_body, hcalc, h12, h20, hifx, hunsup]
    · intro h12 hown hauth
      simp [CommandFlow_Tpm12ClearOwnership_Execute,
        CommandFlow_Tpm12ClearOwnership_body, hcalc, h12, hown, hauth, hmask,
        hmaskne]

/-- A clear-ownership environment probing an owned TPM1.2 whose
owner-authorization check fails with the chip error `TPM_AUTHFAIL`, used by
concrete witnesses. -/
def authFailClearOwnershipEnv : ClearOwnershipEnv :=
  ⟨RC_SUCCESS, ⟨true, true, false, false, false, false, false, true, false⟩,
    RC_TPM_MASK ||| TPM_AUTHFAIL, RC_SUCCESS, RC_SUCCESS⟩

/-- Witness for C10 at a concrete input: an owned TPM1.2 with a failing
owner-authorization check stores `RC_E_TPM12_INVALID_OWNERAUTH` under an
envelope success. -/
theorem clearOwnership_classification_witness :
    (CommandFlow_Tpm12ClearOwnership_Execute authFailClearOwnershipEnv).2 =
      RC_E_TPM12_INVALID_OWNERAUTH :=
  (clearOwnership_classification.2 authFailClearOwnershipEnv rfl).2.2.2.2
    rfl rfl rfl

/-! ## C3 command layer: response handling of the MicroTSS command functions

The byte-codec primitives (`TSS_UINT*_Unmarshal`, the TPM2B sized blob) live
in `TPM2_Marshal.c`, which is not among the sources; they are modelled from
the spec's byte-codec contract (§4.1): big-endian, cursor-bounded, failing
with an insufficient-buffer code.  A response is a byte list; each
unmarshal returns the value and the remaining bytes. -/

/-- Modelled from the spec: big-endian u8 unmarshal of the byte codec,
failing when no byte remains. -/
def TSS_UINT8_Unmarshal : List Nat → Option (Nat × List Nat)
  | [] => none
  | b :: rest => some (b, rest)

/-- Modelled from the spec: big-endian u16 unmarshal of the byte codec. -/
def TSS_UINT16_Unmarshal : List Nat → Option (Nat × List Nat)
  | b0 :: b1 :: rest => some (b0 * 256 + b1, rest)
  | _ => none

/-- Modelled from the spec: big-endian u32 unmarshal of the byte codec. -/
def TSS_UINT32_Unmarshal : List Nat → Option (Nat × List Nat)
  | b0 :: b1 :: b2 :: b3 :: rest =>
      some ((((b0 * 256 + b1) * 256 + b2) * 256 + b3), rest)
  | _ => none

/-- Modelled from the spec: TPM2B sized-blob unmarshal — a 16-bit length
prefix followed by that many opaque octets. -/
def TSS_TPM2B_Unmarshal (bs : List Nat) : Option (List Nat × List Nat) :=
  match TSS_UINT16_Unmarshal bs with
  | none => none
  | some (len, rest) =>
      if len ≤ rest.length then some (rest.take len, rest.drop len)
      else none

/-- The `_Out_` values of `TSS_TPM2_StartAuthSession` together with its
return code; the out-parameters start zero-initialized
(`Platform_MemorySet`). -/
structure StartAuthSessionOut where
  unReturnValue : Nat
  sessionHandle : Nat
  nonceTPM : List Nat
  deriving Repr, DecidableEq

/-- The response-unmarshal phase of `TSS_TPM2_StartAuthSession` from
`TPM2_StartAuthSession.c`: tag (u16), response size (u32), response code
(u32); a non-zero response code returns `RC_TPM_MASK ||| code` leaving the
out-parameters zero-initialized; otherwise the session handle (u32) and
`nonceTPM` (TPM2B) follow. -/
def TSS_TPM2_StartAuthSession_UnmarshalResponse (resp : List Nat) :
    StartAuthSessionOut :=
  match TSS_UINT16_Unmarshal resp with
  | none => ⟨RC_E_BUFFER_TOO_SMALL, 0, []⟩
  | some (_, r1) =>
    match TSS_UINT32_Unmarshal r1 with
    | none => ⟨RC_E_BUFFER_TOO_SMALL, 0, []⟩
    | some (_, r2) =>
      match TSS_UINT32_Unmarshal r2 with
      | none => ⟨RC_E_BUFFER_TOO_SMALL, 0, []⟩
      | some (rc, r3) =>
        if rc ≠ 0 then
          ⟨RC_TPM_MASK ||| rc, 0, []⟩
        else match TSS_UINT32_Unmarshal r3 with
        | none => ⟨RC_E_BUFFER_TOO_SMALL, 0, []⟩
        | some (h, r4) =>
          match TSS_TPM2B_Unmarshal r4 with
          | none => ⟨RC_E_BUFFER_TOO_SMALL, h, []⟩
          | some (nonce, _) => ⟨RC_SUCCESS, h, nonce⟩

/-- The `_Out_` values of `TSS_TPM2_GetCapability` together with its return
code; the out-parameters start zero-initialized. -/
structure GetCapabilityOut where
  unReturnValue : Nat
  moreData : Nat
  capabilityData : List Nat
  deriving Repr, DecidableEq

/-- The response-unmarshal phase of `TSS_TPM2_GetCapability` from
`TPM2_GetCapability.c`: tag (u16), response size (u32), response code (u32);
a non-zero response code returns `RC_TPM_MASK ||| code` leaving the
out-parameters zero-initialized; otherwise `moreData` (u8) follows and the
capability data take the remaining octets (modelled from the spec:
`TSS_TPMS_CAPABILITY_DATA_Unmarshal` is not among the sources). -/
def TSS_TPM2_GetCapability_UnmarshalResponse (resp : List Nat) :
    GetCapabilityOut :=
  match TSS_UINT16_Unmarshal resp with
  | none => ⟨RC_E_BUFFER_TOO_SMALL, 0, []⟩
  | some (_, r1) =>
    match TSS_UINT32_Unmarshal r1 with
    | none => ⟨RC_E_BUFFER_TOO_SMALL, 0, []⟩
    | some (_, r2) =>
      match TSS_UINT32_Unmarshal r2 with
      | none => ⟨RC_E_BUFFER_TOO_SMALL, 0, []⟩
      | some (rc, r3) =>
        if rc ≠ 0 then
          ⟨RC_TPM_MASK ||| rc, 0, []⟩
        else match TSS_UINT8_Unmarshal r3 with
        | none => ⟨RC_E_BUFFER_TOO_SMALL, 0, []⟩
        | some (yn, r4) => ⟨RC_SUCCESS, yn, r4⟩

/-- OR-ing a reserved mask onto a value disjoint from it is undone by XOR
with the mask. -/
theorem lor_xor_cancel {m r : Nat} (h : r &&& m = 0) : (m ||| r) ^^^ m = r := by
  apply Nat.eq_of_testBit_eq
  intro i
  have hb := congrArg (fun n => n.testBit i) h
  simp only [Nat.testBit_and, Nat.zero_testBit] at hb
  rw [Nat.testBit_xor, Nat.testBit_lor]
  cases hm : m.testBit i <;> cases hr : r.testBit i <;> simp_all

/-- C8: in the command-layer response handling (here
`TSS_TPM2_StartAuthSession` and `TSS_TPM2_GetCapability`), a non-zero
unmarshalled TPM response code `rc` makes the function return
`RC_TPM_MASK ||| rc` with no further response fields unmarshalled (the
out-parameters keep their zero-initialized values, whatever bytes follow the
header); and a chip code disjoint from the reserved mask is recovered by the
caller's XOR with `RC_TPM_MASK`. -/
theorem commandLayer_chip_error_masked :
    (∀ (t0 t1 s0 s1 s2 s3 c0 c1 c2 c3 : Nat) (rest : List Nat),
      ((c0 * 256 + c1) * 256 + c2) * 256 + c3 ≠ 0 →
      TSS_TPM2_StartAuthSession_UnmarshalResponse
          (t0 :: t1 :: s0 :: s1 :: s2 :: s3 :: c0 :: c1 :: c2 :: c3 ::
            rest) =
        ⟨RC_TPM_MASK ||| (((c0 * 256 + c1) * 256 + c2) * 256 + c3), 0, []⟩ ∧
      TSS_TPM2_GetCapability_UnmarshalResponse
          (t0 :: t1 :: s0 :: s1 :: s2 :: s3 :: c0 :: c1 :: c2 :: c3 ::
            rest) =
        ⟨RC_TPM_MASK ||| (((c0 * 256 + c1) * 256 + c2) * 256 + c3), 0,
          []⟩) ∧
    (∀ r : Nat, r &&& RC_TPM_MASK = 0 →
      (RC_TPM_MASK ||| r) ^^^ RC_TPM_MASK = r) := by
  constructor
  · intro t0 t1 s0 s1 s2 s3 c0 c1 c2 c3 rest hrc
    constructor
    · simp [TSS_TPM2_StartAuthSession_UnmarshalResponse,
        TSS_UINT16_Unmarshal, TSS_UINT32_Unmarshal, hrc]
    · simp [TSS_TPM2_GetCapability_UnmarshalResponse,
        TSS_UINT16_Unmarshal, TSS_UINT32_Unmarshal, hrc]
  · intro r h
    exact lor_xor_cancel h

/-- Witness for C8 at a concrete response: a chip answering
`TPM_RC_FAILURE` (`0x101`) makes `TSS_TPM2_StartAuthSession` return the
masked code, from which XOR with the mask recovers `0x101`. -/
theorem commandLayer_chip_error_masked_witness :
    TSS_TPM2_StartAuthSession_UnmarshalResponse
        [0x80, 0x01, 0, 0, 0, 0x0A, 0, 0, 1, 1] =
      ⟨RC_TPM_MASK ||| 0x101, 0, []⟩ ∧
    (RC_TPM_MASK ||| 0x101) ^^^ RC_TPM_MASK = 0x101 :=
  ⟨(commandLayer_chip_error_masked.1 0x80 0x01 0 0 0 0x0A 0 0 1 1 []
      (by decide)).1,
    commandLayer_chip_error_masked.2 0x101 (by decide)⟩
